import Mathlib

/-!
# Verification of the opencode-font grid/font pipeline

Shallow embedding of the repository's core logic:

* `gridToSVGPath` and the glyph table `GLYPHS` from `scripts/generate-fonts.ts`
* `convertTextToSVG` / `escapeXml` from `src/convertTextToSVG.ts`
* the control flow of `main` in `scripts/generate-fonts.ts`
* the exit-code behaviour of `scripts/validate-fonts.sh`

Machine numbers are modelled as `Nat` (all quantities involved are small
non-negative integers), JavaScript partial records as association lists,
`null | undefined` as `Option`, and thrown exceptions as `Except`.
-/

namespace OpencodeFont

/-! ## Grid-to-path synthesizer (`gridToSVGPath`, generate-fonts.ts lines 551-570) -/

/-- The rectangle sub-path pushed for one filled cell:
`M${x},${y} L${x+s},${y} L${x+s},${y+s} L${x},${y+s} Z`. -/
def rectPath (s x y : Nat) : String :=
  "M" ++ toString x ++ "," ++ toString y ++
  " L" ++ toString (x + s) ++ "," ++ toString y ++
  " L" ++ toString (x + s) ++ "," ++ toString (y + s) ++
  " L" ++ toString x ++ "," ++ toString (y + s) ++ " Z"

/-- Inner loop of `gridToSVGPath`: `for (col = 0; col < columns.length; col++)`,
pushing a rectangle for each cell whose value is `1`. -/
def rowPaths (s row : Nat) (columns : List Nat) : List String :=
  columns.enum.filterMap fun p =>
    if p.2 = 1 then some (rectPath s (p.1 * s) (row * s)) else none

/-- Source function `gridToSVGPath`, with the cell size as an explicit parameter (the source
reads it from `CONFIG.blockSize`).  The grid is the JS record
`Record<number, number[]>`, embedded as an association list; a missing row
defaults to `[0, 0, 0, 0]` (the `rows[row] || [0,0,0,0]` fallback).
Rows `0..6` are visited in order and the collected sub-paths are joined
with a single space (`paths.join(' ')`). -/
def gridToSVGPathWith (s : Nat) (rows : List (Nat × List Nat)) : String :=
  String.intercalate " "
    ((List.range 7).flatMap fun row =>
      rowPaths s row ((List.lookup row rows).getD [0, 0, 0, 0]))

/-- Source constant `CONFIG.blockSize = 100` (SVG units per grid cell). -/
def CONFIG_blockSize : Nat := 100

/-- Source function `gridToSVGPath` exactly as the script calls it, with `CONFIG.blockSize`. -/
def gridToSVGPath (rows : List (Nat × List Nat)) : String :=
  gridToSVGPathWith CONFIG_blockSize rows

/-! Spec-side description of the same computation, written from the spec's
words for the refinement claim C1: the space-joined concatenation, in
row-major order, of exactly one sub-path per cell equal to 1, with
`x = col * s`, `y = row * s`; absent rows are all-empty. -/

/-- The value of cell `(row, col)`, with absent rows all-empty
(spec wording, used only to state the refinement). -/
def cellValue (rows : List (Nat × List Nat)) (row col : Nat) : Nat :=
  ((List.lookup row rows).getD [0, 0, 0, 0]).getD col 0

/-- Spec-side path builder: row-major over the fixed 7×4 grid, one
rectangle sub-path per cell equal to 1, joined by single spaces. -/
def specGridPath (s : Nat) (rows : List (Nat × List Nat)) : String :=
  String.intercalate " "
    ((List.range 7).flatMap fun row =>
      (List.range 4).filterMap fun col =>
        if cellValue rows row col = 1 then
          some (rectPath s (col * s) (row * s))
        else none)

/-! ## Glyph table (`GLYPHS`, generate-fonts.ts lines 92-542)

`Record<string, { glyph: Glyph; unicode: number }>`, embedded as an
association list keyed by the character.  Each glyph's `rows` record is
an association list from row index to its four cell values. -/

/-- Source type: `type Glyph = { rows: Record<number, number[]> }`. -/
structure Glyph where
  rows : List (Nat × List Nat)
deriving DecidableEq

/-- One value of the `GLYPHS` record: `{ unicode: number; glyph: Glyph }`. -/
structure GlyphEntry where
  unicode : Nat
  glyph : Glyph
deriving DecidableEq

/-- The 32-entry glyph table, transcribed from the source. -/
def GLYPHS : List (Char × GlyphEntry) := [
  ('A', ⟨65, ⟨[(0, [0, 0, 0, 0]), (1, [1, 1, 1, 1]), (2, [0, 0, 0, 1]), (3, [1, 1, 1, 1]), (4, [1, 0, 0, 1]), (5, [1, 1, 1, 1]), (6, [0, 0, 0, 0])]⟩⟩),
  ('B', ⟨66, ⟨[(0, [0, 0, 0, 0]), (1, [1, 1, 1, 1]), (2, [1, 0, 0, 1]), (3, [1, 1, 1, 1]), (4, [1, 0, 0, 1]), (5, [1, 1, 1, 1]), (6, [0, 0, 0, 0])]⟩⟩),
  ('C', ⟨67, ⟨[(0, [0, 0, 0, 0]), (1, [1, 1, 1, 1]), (2, [1, 0, 0, 0]), (3, [1, 0, 0, 0]), (4, [1, 0, 0, 0]), (5, [1, 1, 1, 1]), (6, [0, 0, 0, 0])]⟩⟩),
  ('D', ⟨68, ⟨[(0, [0, 0, 0, 0]), (1, [1, 1, 1, 1]), (2, [1, 0, 0, 1]), (3, [1, 0, 0, 1]), (4, [1, 0, 0, 1]), (5, [1, 1, 1, 1]), (6, [0, 0, 0, 0])]⟩⟩),
  ('E', ⟨69, ⟨[(0, [0, 0, 0, 0]), (1, [1, 1, 1, 1]), (2, [1, 0, 0, 0]), (3, [1, 1, 1, 0]), (4, [1, 0, 0, 0]), (5, [1, 1, 1, 1]), (6, [0, 0, 0, 0])]⟩⟩),
  ('F', ⟨70, ⟨[(0, [0, 0, 0, 0]), (1, [1, 1, 1, 1]), (2, [1, 0, 0, 0]), (3, [1, 1, 1, 0]), (4, [1, 0, 0, 0]), (5, [1, 0, 0, 0]), (6, [0, 0, 0, 0])]⟩⟩),
  ('G', ⟨71, ⟨[(0, [0, 0, 0, 0]), (1, [1, 1, 1, 1]), (2, [1, 0, 0, 0]), (3, [1, 0, 1, 1]), (4, [1, 0, 0, 1]), (5, [1, 1, 1, 1]), (6, [0, 0, 0, 0])]⟩⟩),
  ('H', ⟨72, ⟨[(0, [0, 0, 0, 0]), (1, [1, 0, 0, 1]), (2, [1, 0, 0, 1]), (3, [1, 1, 1, 1]), (4, [1, 0, 0, 1]), (5, [1, 0, 0, 1]), (6, [0, 0, 0, 0])]⟩⟩),
  ('I', ⟨73, ⟨[(0, [0, 0, 0, 0]), (1, [1, 1, 1, 1]), (2, [0, 1, 1, 0]), (3, [0, 1, 1, 0]), (4, [0, 1, 1, 0]), (5, [1, 1, 1, 1]), (6, [0, 0, 0, 0])]⟩⟩),
  ('J', ⟨74, ⟨[(0, [0, 0, 0, 0]), (1, [0, 1, 1, 1]), (2, [0, 0, 1, 0]), (3, [0, 0, 1, 0]), (4, [1, 0, 1, 0]), (5, [1, 1, 1, 0]), (6, [0, 0, 0, 0])]⟩⟩),
  ('K', ⟨75, ⟨[(0, [0, 0, 0, 0]), (1, [1, 0, 0, 1]), (2, [1, 0, 1, 0]), (3, [1, 1, 0, 0]), (4, [1, 0, 1, 0]), (5, [1, 0, 0, 1]), (6, [0, 0, 0, 0])]⟩⟩),
  ('L', ⟨76, ⟨[(0, [0, 0, 0, 0]), (1, [1, 0, 0, 0]), (2, [1, 0, 0, 0]), (3, [1, 0, 0, 0]), (4, [1, 0, 0, 0]), (5, [1, 1, 1, 1]), (6, [0, 0, 0, 0])]⟩⟩),
  ('M', ⟨77, ⟨[(0, [0, 0, 0, 0]), (1, [1, 0, 0, 1]), (2, [1, 1, 1, 1]), (3, [1, 0, 0, 1]), (4, [1, 0, 0, 1]), (5, [1, 0, 0, 1]), (6, [0, 0, 0, 0])]⟩⟩),
  ('N', ⟨78, ⟨[(0, [0, 0, 0, 0]), (1, [1, 0, 0, 1]), (2, [1, 1, 0, 1]), (3, [1, 0, 1, 1]), (4, [1, 0, 0, 1]), (5, [1, 0, 0, 1]), (6, [0, 0, 0, 0])]⟩⟩),
  ('O', ⟨79, ⟨[(0, [0, 0, 0, 0]), (1, [1, 1, 1, 1]), (2, [1, 0, 0, 1]), (3, [1, 0, 0, 1]), (4, [1, 0, 0, 1]), (5, [1, 1, 1, 1]), (6, [0, 0, 0, 0])]⟩⟩),
  ('P', ⟨80, ⟨[(0, [0, 0, 0, 0]), (1, [1, 1, 1, 1]), (2, [1, 0, 0, 1]), (3, [1, 1, 1, 1]), (4, [1, 0, 0, 0]), (5, [1, 0, 0, 0]), (6, [0, 0, 0, 0])]⟩⟩),
  ('Q', ⟨81, ⟨[(0, [0, 0, 0, 0]), (1, [1, 1, 1, 1]), (2, [1, 0, 0, 1]), (3, [1, 0, 0, 1]), (4, [1, 0, 1, 0]), (5, [1, 1, 0, 1]), (6, [0, 0, 0, 0])]⟩⟩),
  ('R', ⟨82, ⟨[(0, [0, 0, 0, 0]), (1, [1, 1, 1, 1]), (2, [1, 0, 0, 1]), (3, [1, 1, 1, 1]), (4, [1, 0, 1, 0]), (5, [1, 0, 0, 1]), (6, [0, 0, 0, 0])]⟩⟩),
  ('S', ⟨83, ⟨[(0, [0, 0, 0, 0]), (1, [1, 1, 1, 1]), (2, [1, 0, 0, 0]), (3, [1, 1, 1, 1]), (4, [0, 0, 0, 1]), (5, [1, 1, 1, 1]), (6, [0, 0, 0, 0])]⟩⟩),
  ('T', ⟨84, ⟨[(0, [0, 0, 0, 0]), (1, [1, 1, 1, 1]), (2, [0, 1, 1, 0]), (3, [0, 1, 1, 0]), (4, [0, 1, 1, 0]), (5, [0, 1, 1, 0]), (6, [0, 0, 0, 0])]⟩⟩),
  ('U', ⟨85, ⟨[(0, [0, 0, 0, 0]), (1, [1, 0, 0, 1]), (2, [1, 0, 0, 1]), (3, [1, 0, 0, 1]), (4, [1, 0, 0, 1]), (5, [1, 1, 1, 1]), (6, [0, 0, 0, 0])]⟩⟩),
  ('V', ⟨86, ⟨[(0, [0, 0, 0, 0]), (1, [1, 0, 0, 1]), (2, [1, 0, 0, 1]), (3, [1, 0, 0, 1]), (4, [1, 0, 0, 1]), (5, [0, 1, 1, 0]), (6, [0, 0, 0, 0])]⟩⟩),
  ('W', ⟨87, ⟨[(0, [0, 0, 0, 0]), (1, [1, 0, 0, 1]), (2, [1, 0, 0, 1]), (3, [1, 0, 0, 1]), (4, [1, 1, 1, 1]), (5, [1, 0, 0, 1]), (6, [0, 0, 0, 0])]⟩⟩),
  ('X', ⟨88, ⟨[(0, [0, 0, 0, 0]), (1, [1, 0, 0, 1]), (2, [0, 1, 1, 0]), (3, [0, 1, 1, 0]), (4, [0, 1, 1, 0]), (5, [1, 0, 0, 1]), (6, [0, 0, 0, 0])]⟩⟩),
  ('Y', ⟨89, ⟨[(0, [0, 0, 0, 0]), (1, [1, 0, 0, 1]), (2, [1, 0, 0, 1]), (3, [0, 1, 1, 0]), (4, [0, 1, 1, 0]), (5, [0, 1, 1, 0]), (6, [0, 0, 0, 0])]⟩⟩),
  ('Z', ⟨90, ⟨[(0, [0, 0, 0, 0]), (1, [1, 1, 1, 1]), (2, [0, 0, 1, 0]), (3, [0, 1, 0, 0]), (4, [1, 0, 0, 0]), (5, [1, 1, 1, 1]), (6, [0, 0, 0, 0])]⟩⟩),
  ('-', ⟨45, ⟨[(0, [0, 0, 0, 0]), (1, [0, 0, 0, 0]), (2, [0, 0, 0, 0]), (3, [1, 1, 1, 1]), (4, [0, 0, 0, 0]), (5, [0, 0, 0, 0]), (6, [0, 0, 0, 0])]⟩⟩),
  ('|', ⟨124, ⟨[(0, [0, 0, 0, 0]), (1, [0, 1, 1, 0]), (2, [0, 1, 1, 0]), (3, [0, 1, 1, 0]), (4, [0, 1, 1, 0]), (5, [0, 1, 1, 0]), (6, [0, 0, 0, 0])]⟩⟩),
  (Char.ofNat 39, ⟨39, ⟨[(0, [0, 0, 0, 0]), (1, [0, 1, 0, 0]), (2, [0, 1, 0, 0]), (3, [0, 0, 0, 0]), (4, [0, 0, 0, 0]), (5, [0, 0, 0, 0]), (6, [0, 0, 0, 0])]⟩⟩),
  ('\"', ⟨34, ⟨[(0, [0, 0, 0, 0]), (1, [1, 0, 1, 0]), (2, [1, 0, 1, 0]), (3, [0, 0, 0, 0]), (4, [0, 0, 0, 0]), (5, [0, 0, 0, 0]), (6, [0, 0, 0, 0])]⟩⟩),
  ('?', ⟨63, ⟨[(0, [0, 0, 0, 0]), (1, [1, 1, 1, 1]), (2, [0, 0, 0, 1]), (3, [0, 1, 1, 0]), (4, [0, 0, 0, 0]), (5, [0, 1, 1, 0]), (6, [0, 0, 0, 0])]⟩⟩),
  ('!', ⟨33, ⟨[(0, [0, 0, 0, 0]), (1, [0, 1, 1, 0]), (2, [0, 1, 1, 0]), (3, [0, 1, 1, 0]), (4, [0, 0, 0, 0]), (5, [0, 1, 1, 0]), (6, [0, 0, 0, 0])]⟩⟩)
]

/-- A row is filled when it holds at least one cell equal to 1. -/
def rowFilled (r : Nat × List Nat) : Bool :=
  r.2.any fun v => v = 1

/-- A glyph has a filled cell when some row is filled. -/
def hasFilledCell (g : Glyph) : Bool :=
  g.rows.any rowFilled

/-- Number of filled rows of a glyph. -/
def filledRowCount (g : Glyph) : Nat :=
  (g.rows.filter rowFilled).length

/-! ## `convertTextToSVG` and `escapeXml` (src/convertTextToSVG.ts lines 33-89)

`text: string | null | undefined` is `Option String`; every optional
field of the options object is an `Option`, `none` standing for an
absent/undefined property (on which the destructuring default fires).
JavaScript truthiness tests (`width ?`, `role ?` ...) are `0`, resp.
`""`, tested explicitly. -/

/-- One step of `escapeXml`'s character-class replacement. -/
def escapeChar (c : Char) : String :=
  if c = '&' then "&amp;"
  else if c = '<' then "&lt;"
  else if c = '>' then "&gt;"
  else if c = '"' then "&quot;"
  else if c = Char.ofNat 39 then "&apos;"
  else String.singleton c

/-- Source function `escapeXml` on a (non-null) string: replace each of `& < > " '`
by its XML entity, leaving every other character unchanged. -/
def escapeXml (s : String) : String :=
  String.join (s.toList.map escapeChar)

/-- The options object of `convertTextToSVG`; `none` = property absent. -/
structure ConvertOptions where
  fontSize : Option Nat := none
  color : Option String := none
  fontFamily : Option String := none
  width : Option Nat := none
  height : Option Nat := none
  includeNamespace : Option Bool := none
  role : Option String := none
  ariaLabel : Option String := none

/-- Source: `const ns = includeNamespace ? 'xmlns="..."' : ''` (default `true`). -/
def nsAttr (o : ConvertOptions) : String :=
  if o.includeNamespace.getD true then "xmlns=\"http://www.w3.org/2000/svg\"" else ""

/-- Source: `const wAttr = width ? ` width="${width}"` : ''` (absent or 0 is falsy). -/
def widthAttr (o : ConvertOptions) : String :=
  match o.width with
  | none => ""
  | some w => if w = 0 then "" else " width=\"" ++ (toString w ++ "\"")

/-- Source: `const hAttr = height ? ` height="${height}"` : ''`. -/
def heightAttr (o : ConvertOptions) : String :=
  match o.height with
  | none => ""
  | some h => if h = 0 then "" else " height=\"" ++ (toString h ++ "\"")

/-- Source: `const roleAttr = role ? ` role="${role}"` : ''` (absent or "" is falsy). -/
def roleAttr (o : ConvertOptions) : String :=
  match o.role with
  | none => ""
  | some r => if r = "" then "" else " role=\"" ++ (r ++ "\"")

/-- Source: `const ariaAttr = ariaLabel ? ` aria-label="${ariaLabel}"` : ''`. -/
def ariaAttr (o : ConvertOptions) : String :=
  match o.ariaLabel with
  | none => ""
  | some a => if a = "" then "" else " aria-label=\"" ++ (a ++ "\"")

/-- Source function `convertTextToSVG(text, options = {})`: the template literal of lines
64-66, with the destructuring defaults `fontSize = 48`, `color = '#000'`,
`fontFamily = 'OpenCodeLogo'`, `includeNamespace = true`, and
`safeText = text == null ? '' : String(text)`. -/
def convertTextToSVG (text : Option String) (o : ConvertOptions := {}) : String :=
  "<svg " ++ (nsAttr o ++ (widthAttr o ++ (heightAttr o ++
    (" viewBox=\"0 0 100 20\"" ++ (roleAttr o ++ (ariaAttr o ++
    (">\n  <text x=\"0\" y=\"14\" font-family=\"" ++ (o.fontFamily.getD "OpenCodeLogo" ++
    ("\" font-size=\"" ++ (toString (o.fontSize.getD 48) ++
    ("\" fill=\"" ++ (o.color.getD "#000" ++
    ("\">" ++ (escapeXml (text.getD "") ++ "</text>\n</svg>"))))))))))))))

/-! ## Font generation pipeline control flow (`main`, generate-fonts.ts lines 736-771)

Each stage of `main`'s `try` block is a fallible computation (`Except`).
`E` is the type of thrown errors, `A` the SVG font string, `B` the
buffer type.  The `catch` block calls `cleanup()` and `process.exit(1)`;
the success path calls `cleanup()` as step 6 and ends with exit code 0. -/

/-- The six pipeline stages of `main`, in source order. -/
inductive Stage where
  | glyphSVGs | svgFont | ttf | woff2 | woff | save
deriving DecidableEq

/-- Position of a stage in the linear pipeline. -/
def stageIdx : Stage → Nat
  | .glyphSVGs => 0
  | .svgFont => 1
  | .ttf => 2
  | .woff2 => 3
  | .woff => 4
  | .save => 5

/-- The fallible operations `main` composes, abstracted over their
implementations: `generateGlyphSVGs`, `generateSVGFont`, `generateTTF`,
`generateWOFF2`, `generateWOFF`, `saveFonts`. -/
structure Pipeline (E A B : Type) where
  generateGlyphSVGs : Except E Unit
  generateSVGFont : Except E A
  generateTTF : A → Except E B
  generateWOFF2 : B → Except E B
  generateWOFF : B → Except E B
  saveFonts : B → B → B → Except E Unit

/-- Observable outcome of one run of `main`: stages that executed, the
TTF buffer produced by stage 3, the argument passed to each of the two
compressions, the buffers handed to `saveFonts`, the first failing
stage, whether `cleanup()` ran, and the process exit code. -/
structure RunTrace (B : Type) where
  ranStages : List Stage
  ttfOutput : Option B := none
  woff2Input : Option B := none
  woffInput : Option B := none
  savedFiles : Option (B × B × B) := none
  failedStage : Option Stage := none
  cleanupRan : Bool
  exitCode : Nat

/-- Control and data flow of `main` (lines 736-771): the `try` block runs
the stages in order; the first thrown error jumps to the `catch` block,
which runs `cleanup()` and `process.exit(1)`; on success step 6 runs
`cleanup()` and the process ends with exit code 0. -/
def mainRun {E A B : Type} (p : Pipeline E A B) : RunTrace B :=
  match p.generateGlyphSVGs with
  | .error _ => { ranStages := [.glyphSVGs], failedStage := some .glyphSVGs,
                  cleanupRan := true, exitCode := 1 }
  | .ok _ =>
    match p.generateSVGFont with
    | .error _ => { ranStages := [.glyphSVGs, .svgFont], failedStage := some .svgFont,
                    cleanupRan := true, exitCode := 1 }
    | .ok svgFont =>
      match p.generateTTF svgFont with
      | .error _ => { ranStages := [.glyphSVGs, .svgFont, .ttf], failedStage := some .ttf,
                      cleanupRan := true, exitCode := 1 }
      | .ok ttfBuffer =>
        match p.generateWOFF2 ttfBuffer with
        | .error _ =>
          { ranStages := [.glyphSVGs, .svgFont, .ttf, .woff2],
            ttfOutput := some ttfBuffer, woff2Input := some ttfBuffer,
            failedStage := some .woff2, cleanupRan := true, exitCode := 1 }
        | .ok woff2Buffer =>
          match p.generateWOFF ttfBuffer with
          | .error _ =>
            { ranStages := [.glyphSVGs, .svgFont, .ttf, .woff2, .woff],
              ttfOutput := some ttfBuffer, woff2Input := some ttfBuffer,
              woffInput := some ttfBuffer,
              failedStage := some .woff, cleanupRan := true, exitCode := 1 }
          | .ok woffBuffer =>
            match p.saveFonts ttfBuffer woff2Buffer woffBuffer with
            | .error _ =>
              { ranStages := [.glyphSVGs, .svgFont, .ttf, .woff2, .woff, .save],
                ttfOutput := some ttfBuffer, woff2Input := some ttfBuffer,
                woffInput := some ttfBuffer,
                failedStage := some .save, cleanupRan := true, exitCode := 1 }
            | .ok _ =>
              { ranStages := [.glyphSVGs, .svgFont, .ttf, .woff2, .woff, .save],
                ttfOutput := some ttfBuffer, woff2Input := some ttfBuffer,
                woffInput := some ttfBuffer,
                savedFiles := some (ttfBuffer, woff2Buffer, woffBuffer),
                cleanupRan := true, exitCode := 0 }

/-! ## Font validation script (`scripts/validate-fonts.sh`)

State of the `fonts/` directory and of the host tools as the script
sees them, and the script's observable outcome (messages and exit
code).  The script runs under `set -euo pipefail` and exits at the
first fatal check; later checks only print messages. -/

/-- `MAX_WOFF2_SIZE=51200` (50KB). -/
def MAX_WOFF2_SIZE : Nat := 51200

/-- `MAX_WOFF_SIZE=102400` (100KB). -/
def MAX_WOFF_SIZE : Nat := 102400

/-- `MAX_TTF_SIZE=204800` (200KB). -/
def MAX_TTF_SIZE : Nat := 204800

/-- What the validation script can observe: per file, whether it exists
and its byte size; whether the `file` command is available and what it
reports; the hex of the first four bytes of the WOFF2 file as read via
`xxd` (`""` when `xxd` is unavailable). -/
structure ValidationInput where
  woff2Present : Bool
  woff2Size : Nat
  woffPresent : Bool
  woffSize : Nat
  ttfPresent : Bool
  ttfSize : Nat
  fileCmdAvailable : Bool
  ttfFileTypeMatches : Bool
  woffFileTypeMatches : Bool
  woff2Header : String

/-- The messages the script prints, one constructor per `echo` of
interest (pass/fail/warning lines). -/
inductive VMsg where
  | woff2Missing | woff2SizeExceeds | woff2Empty | woff2Ok
  | woffMissing | woffSizeExceeds | woffEmpty | woffOk
  | ttfMissing | ttfSizeExceeds | ttfEmpty | ttfOk
  | ttfFormatVerified | ttfFormatWarning
  | woffFormatVerified | woffFormatWarning
  | formatCheckSkipped
  | woff2MagicVerified | woff2MagicWarning | woff2MagicUnverifiable
  | allValidated
deriving DecidableEq

/-- `validate-fonts.sh`, line by line: the WOFF2, WOFF and TTF existence,
size-ceiling and emptiness checks each `exit 1` on failure; the format
verification (lines 100-119) and the WOFF2 magic-byte check
(lines 121-129) only print warnings; the script then prints the summary
and exits 0.  Returns the printed messages and the exit code. -/
def validateFonts (i : ValidationInput) : List VMsg × Nat :=
  if i.woff2Present = false then ([.woff2Missing], 1)
  else if MAX_WOFF2_SIZE < i.woff2Size then ([.woff2SizeExceeds], 1)
  else if i.woff2Size = 0 then ([.woff2Empty], 1)
  else if i.woffPresent = false then ([.woff2Ok, .woffMissing], 1)
  else if MAX_WOFF_SIZE < i.woffSize then ([.woff2Ok, .woffSizeExceeds], 1)
  else if i.woffSize = 0 then ([.woff2Ok, .woffEmpty], 1)
  else if i.ttfPresent = false then ([.woff2Ok, .woffOk, .ttfMissing], 1)
  else if MAX_TTF_SIZE < i.ttfSize then ([.woff2Ok, .woffOk, .ttfSizeExceeds], 1)
  else if i.ttfSize = 0 then ([.woff2Ok, .woffOk, .ttfEmpty], 1)
  else
    ([.woff2Ok, .woffOk, .ttfOk] ++
      (if i.fileCmdAvailable then
        (if i.ttfFileTypeMatches then [VMsg.ttfFormatVerified] else [VMsg.ttfFormatWarning]) ++
        (if i.woffFileTypeMatches then [VMsg.woffFormatVerified] else [VMsg.woffFormatWarning])
      else [VMsg.formatCheckSkipped]) ++
      [if i.woff2Header = "774f4632" then VMsg.woff2MagicVerified
       else if i.woff2Header = "" then VMsg.woff2MagicUnverifiable
       else VMsg.woff2MagicWarning,
       VMsg.allValidated], 0)

/-! ## Helper lemmas -/

/-- A successful association-list lookup returns one of the list's pairs. -/
theorem mem_of_lookup_eq_some {rows : List (Nat × List Nat)} {r : Nat}
    {l : List Nat} (h : List.lookup r rows = some l) : (r, l) ∈ rows := by
  induction rows with
  | nil => simp [List.lookup] at h
  | cons p ps ih =>
    rcases p with ⟨k, v⟩
    by_cases hk : r = k
    · subst hk
      simp [List.lookup] at h
      simp [h]
    · have hne : (r == k) = false := by simp [hk]
      rw [List.lookup, hne] at h
      exact List.mem_cons_of_mem _ (ih h)

/-- A list of length 4 is a four-element list. -/
theorem length_four_cases {l : List Nat} (h : l.length = 4) :
    ∃ a b c d, l = [a, b, c, d] := by
  rcases l with _ | ⟨a, l⟩
  · simp at h
  rcases l with _ | ⟨b, l⟩
  · simp at h
  rcases l with _ | ⟨c, l⟩
  · simp at h
  rcases l with _ | ⟨d, l⟩
  · simp at h
  rcases l with _ | ⟨e, l⟩
  · exact ⟨a, b, c, d, rfl⟩
  · simp at h

/-- On a four-element row the source's index loop agrees with the
spec-side `range 4` traversal. -/
theorem rowPaths_eq_spec (s row a b c d : Nat) :
    rowPaths s row [a, b, c, d] =
      (List.range 4).filterMap fun col =>
        if [a, b, c, d].getD col 0 = 1 then
          some (rectPath s (col * s) (row * s))
        else none := by
  simp [rowPaths, List.enum, List.range, List.range.loop, List.filterMap]

/-- Under the 4-cells-per-row invariant, every row the loop sees
(present or defaulted) has four cells. -/
theorem columns_length {rows : List (Nat × List Nat)}
    (hlen : ∀ p ∈ rows, (p.2).length = 4) (row : Nat) :
    ((List.lookup row rows).getD [0, 0, 0, 0]).length = 4 := by
  cases hlk : List.lookup row rows with
  | none => simp
  | some l => simpa using hlen (row, l) (mem_of_lookup_eq_some hlk)

/-- A grid with no cell equal to 1 synthesizes the empty path string
(spec side). -/
theorem specGridPath_empty (s : Nat) (rows : List (Nat × List Nat))
    (h : ∀ r < 7, ∀ c < 4, cellValue rows r c ≠ 1) :
    specGridPath s rows = "" := by
  unfold specGridPath
  have hnil : ((List.range 7).flatMap fun row =>
      (List.range 4).filterMap fun col =>
        if cellValue rows row col = 1 then
          some (rectPath s (col * s) (row * s))
        else none) = [] := by
    rw [List.flatMap_eq_nil_iff]
    intro row hrow
    rw [List.filterMap_eq_nil_iff]
    intro col hcol
    rw [if_neg (h row (List.mem_range.mp hrow) col (List.mem_range.mp hcol))]
  rw [hnil]
  rfl

/-! ## Claim theorems -/

/-- Claim C1: for every grid mapping row indices to 4-cell arrays of
0/1 values and every cell size `s`, `gridToSVGPath` returns the
space-joined, row-major concatenation of one closed rectangle sub-path
per cell equal to 1, with `x = col * s` and `y = row * s`; absent rows
are treated as all-empty, and a grid with no filled cells yields the
empty string. -/
theorem C1_gridToSVGPath_refines_spec (s : Nat) (rows : List (Nat × List Nat))
    (hlen : ∀ p ∈ rows, (p.2).length = 4)
    (hval : ∀ p ∈ rows, ∀ v ∈ p.2, v = 0 ∨ v = 1) :
    gridToSVGPathWith s rows = specGridPath s rows ∧
    ((∀ r < 7, ∀ c < 4, cellValue rows r c ≠ 1) → gridToSVGPathWith s rows = "") := by
  have heq : gridToSVGPathWith s rows = specGridPath s rows := by
    unfold gridToSVGPathWith specGridPath
    congr 1
    apply List.flatMap_congr
    intro row _
    obtain ⟨a, b, c, d, hcols⟩ := length_four_cases (columns_length hlen row)
    rw [hcols, rowPaths_eq_spec]
    apply List.filterMap_congr
    intro col _
    simp [cellValue, hcols]
  exact ⟨heq, fun h => heq.trans (specGridPath_empty s rows h)⟩

/-- Witness for C1 at a concrete grid. -/
theorem C1_gridToSVGPath_refines_spec_witness :
    (∀ p ∈ ([(1, [1, 0, 0, 1]), (3, [1, 1, 1, 1])] : List (Nat × List Nat)),
      (Prod.snd p).length = 4) ∧
    gridToSVGPathWith 100 [(1, [1, 0, 0, 1]), (3, [1, 1, 1, 1])] =
      specGridPath 100 [(1, [1, 0, 0, 1]), (3, [1, 1, 1, 1])] :=
  ⟨by decide,
   (C1_gridToSVGPath_refines_spec 100 [(1, [1, 0, 0, 1]), (3, [1, 1, 1, 1])]
     (by decide) (by decide)).1⟩

/-- Claim C2: the glyph table has exactly 32 entries, keyed by A-Z and
the six symbols, every glyph has exactly rows 0-6 of exactly 4 cells
with every cell 0 or 1, and each entry's unicode equals the key
character's code point. -/
theorem C2_glyph_table_invariants :
    GLYPHS.length = 32 ∧
    GLYPHS.map Prod.fst =
      ['A', 'B', 'C', 'D', 'E', 'F', 'G', 'H', 'I', 'J', 'K', 'L', 'M',
       'N', 'O', 'P', 'Q', 'R', 'S', 'T', 'U', 'V', 'W', 'X', 'Y', 'Z',
       '-', '|', Char.ofNat 39, '\"', '?', '!'] ∧
    ∀ e ∈ GLYPHS,
      e.2.glyph.rows.map Prod.fst = [0, 1, 2, 3, 4, 5, 6] ∧
      (∀ r ∈ e.2.glyph.rows, r.2.length = 4 ∧ ∀ v ∈ r.2, v = 0 ∨ v = 1) ∧
      e.2.unicode = e.1.toNat := by
  decide

/-- Claim C8: every one of the 32 defined glyphs has at least one filled
cell and a non-empty synthesized path, and the hyphen glyph has exactly
one filled row. -/
theorem C8_glyph_paths_nondegenerate :
    (∀ e ∈ GLYPHS, hasFilledCell e.2.glyph = true ∧
      gridToSVGPath e.2.glyph.rows ≠ "") ∧
    ∀ e ∈ GLYPHS, e.1 = '-' → filledRowCount e.2.glyph = 1 := by
  decide

def stagesUpTo (st : Stage) : List Stage :=
  [Stage.glyphSVGs, .svgFont, .ttf, .woff2, .woff, .save].take (stageIdx st + 1)

theorem cleanup_on_every_path {E A B : Type} (p : Pipeline E A B) :
    (mainRun p).cleanupRan = true := by
  cases hg : p.generateGlyphSVGs with
  | error e => simp [mainRun, hg]
  | ok u =>
  cases hs : p.generateSVGFont with
  | error e => simp [mainRun, hg, hs]
  | ok svgFont =>
  cases ht : p.generateTTF svgFont with
  | error e => simp [mainRun, hg, hs, ht]
  | ok ttfBuffer =>
  cases h2 : p.generateWOFF2 ttfBuffer with
  | error e => simp [mainRun, hg, hs, ht, h2]
  | ok woff2Buffer =>
  cases hw : p.generateWOFF ttfBuffer with
  | error e => simp [mainRun, hg, hs, ht, h2, hw]
  | ok woffBuffer =>
  cases hv : p.saveFonts ttfBuffer woff2Buffer woffBuffer with
  | error e => simp [mainRun, hg, hs, ht, h2, hw, hv]
  | ok u2 => simp [mainRun, hg, hs, ht, h2, hw, hv]

theorem mainRun_cases {E A B : Type} (p : Pipeline E A B) :
    ((mainRun p).failedStage = none ∧ (mainRun p).exitCode = 0) ∨
    (∃ st, (mainRun p).failedStage = some st ∧ (mainRun p).exitCode = 1 ∧
      (mainRun p).ranStages = stagesUpTo st) := by
  cases hg : p.generateGlyphSVGs with
  | error e => exact Or.inr ⟨.glyphSVGs, by simp [mainRun, hg, stagesUpTo, stageIdx]⟩
  | ok u =>
  cases hs : p.generateSVGFont with
  | error e => exact Or.inr ⟨.svgFont, by simp [mainRun, hg, hs, stagesUpTo, stageIdx]⟩
  | ok svgFont =>
  cases ht : p.generateTTF svgFont with
  | error e => exact Or.inr ⟨.ttf, by simp [mainRun, hg, hs, ht, stagesUpTo, stageIdx]⟩
  | ok ttfBuffer =>
  cases h2 : p.generateWOFF2 ttfBuffer with
  | error e => exact Or.inr ⟨.woff2, by simp [mainRun, hg, hs, ht, h2, stagesUpTo, stageIdx]⟩
  | ok woff2Buffer =>
  cases hw : p.generateWOFF ttfBuffer with
  | error e => exact Or.inr ⟨.woff, by simp [mainRun, hg, hs, ht, h2, hw, stagesUpTo, stageIdx]⟩
  | ok woffBuffer =>
  cases hv : p.saveFonts ttfBuffer woff2Buffer woffBuffer with
  | error e => exact Or.inr ⟨.save, by simp [mainRun, hg, hs, ht, h2, hw, hv, stagesUpTo, stageIdx]⟩
  | ok u2 => exact Or.inl (by simp [mainRun, hg, hs, ht, h2, hw, hv])


/-- Claim C3: if any stage of the pipeline throws, the run aborts without
executing the remaining stages, cleanup runs (as it does on every exit
path, success included), and the process exits with a non-zero code. -/
theorem C3_stage_failure_aborts_and_cleans {E A B : Type} (p : Pipeline E A B) (st : Stage)
    (h : (mainRun p).failedStage = some st) :
    (mainRun p).exitCode = 1 ∧ (mainRun p).cleanupRan = true ∧
    (∀ st', st' ∈ (mainRun p).ranStages ↔ stageIdx st' ≤ stageIdx st) ∧
    ∀ q : Pipeline E A B, (mainRun q).cleanupRan = true := by
  rcases mainRun_cases p with ⟨hn, _⟩ | ⟨st0, hf, he, hr⟩
  · rw [hn] at h
    cases h
  · rw [hf] at h
    injection h with h3
    subst h3
    refine ⟨he, cleanup_on_every_path p, fun st' => ?_, cleanup_on_every_path⟩
    rw [hr]
    cases st0 <;> cases st' <;> decide


/-- Claim C6: in a successful run the WOFF and WOFF2 conversions both
receive exactly the TTF buffer produced by the TTF stage — the same
`t` is the stage-3 output and the input of both compressions, each
compressed directly from it, and all three buffers are what is saved. -/
theorem C6_woff_and_woff2_from_same_ttf {E A B : Type} (p : Pipeline E A B)
    (h : (mainRun p).exitCode = 0) :
    ∃ t w2 w, (mainRun p).ttfOutput = some t ∧
      (mainRun p).woff2Input = some t ∧ (mainRun p).woffInput = some t ∧
      p.generateWOFF2 t = .ok w2 ∧ p.generateWOFF t = .ok w ∧
      (mainRun p).savedFiles = some (t, w2, w) := by
  cases hg : p.generateGlyphSVGs with
  | error e => simp [mainRun, hg] at h
  | ok u =>
  cases hs : p.generateSVGFont with
  | error e => simp [mainRun, hg, hs] at h
  | ok svgFont =>
  cases ht : p.generateTTF svgFont with
  | error e => simp [mainRun, hg, hs, ht] at h
  | ok ttfBuffer =>
  cases h2 : p.generateWOFF2 ttfBuffer with
  | error e => simp [mainRun, hg, hs, ht, h2] at h
  | ok woff2Buffer =>
  cases hw : p.generateWOFF ttfBuffer with
  | error e => simp [mainRun, hg, hs, ht, h2, hw] at h
  | ok woffBuffer =>
  cases hv : p.saveFonts ttfBuffer woff2Buffer woffBuffer with
  | error e => simp [mainRun, hg, hs, ht, h2, hw, hv] at h
  | ok u2 =>
    refine ⟨ttfBuffer, woff2Buffer, woffBuffer, ?_, ?_, ?_, h2, hw, ?_⟩ <;>
      simp [mainRun, hg, hs, ht, h2, hw, hv]

/-- Concrete pipeline whose WOFF2 stage throws (used as witness input). -/
def pFailW : Pipeline Unit String Nat :=
  { generateGlyphSVGs := .ok (), generateSVGFont := .ok "font",
    generateTTF := fun _ => .ok 7, generateWOFF2 := fun _ => .error (),
    generateWOFF := fun b => .ok (b + 1), saveFonts := fun _ _ _ => .ok () }

/-- Witness for C3 at a pipeline whose WOFF2 stage throws. -/
theorem C3_stage_failure_aborts_and_cleans_witness :
    (mainRun pFailW).failedStage = some Stage.woff2 ∧
    ((mainRun pFailW).exitCode = 1 ∧ (mainRun pFailW).cleanupRan = true ∧
     (∀ st', st' ∈ (mainRun pFailW).ranStages ↔ stageIdx st' ≤ stageIdx Stage.woff2) ∧
     ∀ q : Pipeline Unit String Nat, (mainRun q).cleanupRan = true) :=
  ⟨rfl, C3_stage_failure_aborts_and_cleans pFailW Stage.woff2 rfl⟩

/-- Concrete pipeline in which every stage succeeds (used as witness input). -/
def pSuccessW : Pipeline Unit String Nat :=
  { generateGlyphSVGs := .ok (), generateSVGFont := .ok "font",
    generateTTF := fun _ => .ok 7, generateWOFF2 := fun b => .ok (b * 2),
    generateWOFF := fun b => .ok (b + 3), saveFonts := fun _ _ _ => .ok () }

/-- Witness for C6 at a pipeline in which every stage succeeds. -/
theorem C6_woff_and_woff2_from_same_ttf_witness :
    (mainRun pSuccessW).exitCode = 0 ∧
    (∃ t w2 w, (mainRun pSuccessW).ttfOutput = some t ∧
      (mainRun pSuccessW).woff2Input = some t ∧ (mainRun pSuccessW).woffInput = some t ∧
      pSuccessW.generateWOFF2 t = .ok w2 ∧ pSuccessW.generateWOFF t = .ok w ∧
      (mainRun pSuccessW).savedFiles = some (t, w2, w)) :=
  ⟨rfl, C6_woff_and_woff2_from_same_ttf pSuccessW rfl⟩

/-- Validation-script input with an oversize (but present, non-empty,
correct-magic) WOFF2 file. -/
def oversizeWOFF2Input : ValidationInput :=
  { woff2Present := true
    woff2Size := 51201
    woffPresent := true
    woffSize := 1
    ttfPresent := true
    ttfSize := 1
    fileCmdAvailable := true
    ttfFileTypeMatches := true
    woffFileTypeMatches := true
    woff2Header := "774f4632" }

/-- Claim C4 (as stated) is false: a present, non-empty WOFF2 file whose
size exceeds the 50KB ceiling makes the validation script exit 1, not 0. -/
theorem C4_counterexample :
    (validateFonts oversizeWOFF2Input).2 = 1 := by decide

/-- Claim C4 (amended): a size-ceiling breach is reported with the
size-exceeds message but is fatal — the script exits 1, for each of the
three formats, just as for a missing or empty file. -/
theorem C4_size_breach_is_fatal (i : ValidationInput) :
    (i.woff2Present = true → MAX_WOFF2_SIZE < i.woff2Size →
      validateFonts i = ([VMsg.woff2SizeExceeds], 1)) ∧
    (i.woff2Present = true → 0 < i.woff2Size → i.woff2Size ≤ MAX_WOFF2_SIZE →
      i.woffPresent = true → MAX_WOFF_SIZE < i.woffSize →
      validateFonts i = ([VMsg.woff2Ok, VMsg.woffSizeExceeds], 1)) ∧
    (i.woff2Present = true → 0 < i.woff2Size → i.woff2Size ≤ MAX_WOFF2_SIZE →
      i.woffPresent = true → 0 < i.woffSize → i.woffSize ≤ MAX_WOFF_SIZE →
      i.ttfPresent = true → MAX_TTF_SIZE < i.ttfSize →
      validateFonts i = ([VMsg.woff2Ok, VMsg.woffOk, VMsg.ttfSizeExceeds], 1)) := by
  refine ⟨fun h1 h2 => ?_, fun h1 h2 h3 h4 h5 => ?_, fun h1 h2 h3 h4 h5 h6 h7 h8 => ?_⟩
  · unfold validateFonts
    rw [if_neg (by simp [h1]), if_pos h2]
  · unfold validateFonts
    rw [if_neg (by simp [h1]), if_neg (by omega), if_neg (by omega),
      if_neg (by simp [h4]), if_pos h5]
  · unfold validateFonts
    rw [if_neg (by simp [h1]), if_neg (by omega), if_neg (by omega),
      if_neg (by simp [h4]), if_neg (by omega), if_neg (by omega),
      if_neg (by simp [h7]), if_pos h8]

/-- Witness for the amended C4 at a concrete oversize WOFF2 file. -/
theorem C4_size_breach_is_fatal_witness :
    MAX_WOFF2_SIZE < 51201 ∧
    validateFonts oversizeWOFF2Input = ([VMsg.woff2SizeExceeds], 1) :=
  ⟨by decide, (C4_size_breach_is_fatal oversizeWOFF2Input).1 rfl (by decide)⟩

/-- Validation-script input with three present, non-empty, within-budget
files whose WOFF2 magic bytes are wrong. -/
def wrongMagicInput : ValidationInput :=
  { woff2Present := true
    woff2Size := 100
    woffPresent := true
    woffSize := 100
    ttfPresent := true
    ttfSize := 100
    fileCmdAvailable := true
    ttfFileTypeMatches := true
    woffFileTypeMatches := true
    woff2Header := "deadbeef" }

/-- Claim C5 (as stated) is false: with all three files present, non-empty
and under their ceilings, a WOFF2 file with wrong magic bytes still lets
the script exit 0 (the incorrect-magic message is only a warning). -/
theorem C5_counterexample :
    (validateFonts wrongMagicInput).2 = 0 ∧
    VMsg.woff2MagicWarning ∈ (validateFonts wrongMagicInput).1 := by decide

/-- Claim C5 (amended): wrong WOFF2 magic bytes are reported only as a
warning message; whenever the three files are present, non-empty and
within their size ceilings the script exits 0 regardless of the magic
bytes — only missing, empty or oversize files are fatal. -/
theorem C5_wrong_magic_only_warns (i : ValidationInput)
    (hp2 : i.woff2Present = true) (hpw : i.woffPresent = true) (hpt : i.ttfPresent = true)
    (hz2 : 0 < i.woff2Size) (hzw : 0 < i.woffSize) (hzt : 0 < i.ttfSize)
    (hc2 : i.woff2Size ≤ MAX_WOFF2_SIZE) (hcw : i.woffSize ≤ MAX_WOFF_SIZE)
    (hct : i.ttfSize ≤ MAX_TTF_SIZE)
    (hm : i.woff2Header ≠ "774f4632") (hne : i.woff2Header ≠ "") :
    (validateFonts i).2 = 0 ∧ VMsg.woff2MagicWarning ∈ (validateFonts i).1 := by
  have hv : validateFonts i =
      ([VMsg.woff2Ok, VMsg.woffOk, VMsg.ttfOk] ++
        (if i.fileCmdAvailable then
          (if i.ttfFileTypeMatches then [VMsg.ttfFormatVerified]
            else [VMsg.ttfFormatWarning]) ++
          (if i.woffFileTypeMatches then [VMsg.woffFormatVerified]
            else [VMsg.woffFormatWarning])
        else [VMsg.formatCheckSkipped]) ++
        [VMsg.woff2MagicWarning, VMsg.allValidated], 0) := by
    unfold validateFonts
    rw [if_neg (by simp [hp2]), if_neg (by omega), if_neg (by omega),
      if_neg (by simp [hpw]), if_neg (by omega), if_neg (by omega),
      if_neg (by simp [hpt]), if_neg (by omega), if_neg (by omega),
      if_neg hm, if_neg hne]
  rw [hv]
  exact ⟨rfl, by simp⟩

/-- Witness for the amended C5 at a concrete wrong-magic WOFF2 file. -/
theorem C5_wrong_magic_only_warns_witness :
    (("deadbeef" : String) ≠ "774f4632" ∧ ("deadbeef" : String) ≠ "") ∧
    ((validateFonts wrongMagicInput).2 = 0 ∧
     VMsg.woff2MagicWarning ∈ (validateFonts wrongMagicInput).1) :=
  ⟨⟨by decide, by decide⟩,
   C5_wrong_magic_only_warns wrongMagicInput
     rfl rfl rfl (by decide) (by decide) (by decide) (by decide) (by decide)
     (by decide) (by decide) (by decide)⟩

/-- Claim C7: with no options, `convertTextToSVG` produces a single
`<text>` element with font-family `OpenCodeLogo`, font-size 48 and fill
`#000` — equal to passing those three values explicitly — whose character
content is the input text with `& < > "` and the apostrophe replaced by
their XML entities and every other character kept unchanged. -/
theorem C7_default_options (t : Option String) (c : Char)
    (h1 : c ≠ '&') (h2 : c ≠ '<') (h3 : c ≠ '>') (h4 : c ≠ '\"')
    (h5 : c ≠ Char.ofNat 39) :
    convertTextToSVG t {} =
      convertTextToSVG t
        { fontSize := some 48, color := some "#000", fontFamily := some "OpenCodeLogo" } ∧
    convertTextToSVG t {} =
      "<svg xmlns=\"http://www.w3.org/2000/svg\" viewBox=\"0 0 100 20\">\n  <text x=\"0\" y=\"14\" font-family=\"OpenCodeLogo\" font-size=\"48\" fill=\"#000\">" ++
      (escapeXml (t.getD "") ++ "</text>\n</svg>") ∧
    escapeChar '&' = "&amp;" ∧ escapeChar '<' = "&lt;" ∧ escapeChar '>' = "&gt;" ∧
    escapeChar '\"' = "&quot;" ∧ escapeChar (Char.ofNat 39) = "&apos;" ∧
    escapeChar c = String.singleton c := by
  refine ⟨rfl, rfl, rfl, rfl, rfl, rfl, rfl, ?_⟩
  simp [escapeChar, h1, h2, h3, h4, h5]

/-- Witness for C7 at a concrete text and ordinary character. -/
theorem C7_default_options_witness :
    ('x' ≠ '&' ∧ 'x' ≠ '<' ∧ 'x' ≠ '>' ∧ 'x' ≠ '\"' ∧ 'x' ≠ Char.ofNat 39) ∧
    (convertTextToSVG (some "A<B") {} =
      convertTextToSVG (some "A<B")
        { fontSize := some 48, color := some "#000", fontFamily := some "OpenCodeLogo" } ∧
    convertTextToSVG (some "A<B") {} =
      "<svg xmlns=\"http://www.w3.org/2000/svg\" viewBox=\"0 0 100 20\">\n  <text x=\"0\" y=\"14\" font-family=\"OpenCodeLogo\" font-size=\"48\" fill=\"#000\">" ++
      (escapeXml ((some "A<B").getD "") ++ "</text>\n</svg>") ∧
    escapeChar '&' = "&amp;" ∧ escapeChar '<' = "&lt;" ∧ escapeChar '>' = "&gt;" ∧
    escapeChar '\"' = "&quot;" ∧ escapeChar (Char.ofNat 39) = "&apos;" ∧
    escapeChar 'x' = String.singleton 'x') :=
  ⟨⟨by decide, by decide, by decide, by decide, by decide⟩,
   C7_default_options (some "A<B") 'x' (by decide) (by decide) (by decide)
     (by decide) (by decide)⟩

/-- Claim C9: `fontFamily`, `color`, `role` and `ariaLabel` are
interpolated into the output verbatim, with no XML escaping — the raw
value strings appear unchanged in their attribute positions, whatever
characters they contain; only the text argument goes through
`escapeXml`. -/
theorem C9_option_values_not_escaped (t : Option String) (fam col role aria : String)
    (hrole : role ≠ "") (haria : aria ≠ "") :
    convertTextToSVG t
        { color := some col, fontFamily := some fam,
          role := some role, ariaLabel := some aria } =
      "<svg xmlns=\"http://www.w3.org/2000/svg\" viewBox=\"0 0 100 20\" role=\"" ++
      (role ++ ("\" aria-label=\"" ++ (aria ++
      ("\">\n  <text x=\"0\" y=\"14\" font-family=\"" ++ (fam ++
      ("\" font-size=\"48\" fill=\"" ++ (col ++
      ("\">" ++ (escapeXml (t.getD "") ++ "</text>\n</svg>"))))))))) := by
  simp only [convertTextToSVG, nsAttr, widthAttr, heightAttr, roleAttr, ariaAttr]
  rw [if_neg hrole, if_neg haria]
  simp only [String.append_assoc]
  rfl

/-- Witness for C9 at option values containing quote and angle-bracket
characters, which appear unescaped in the output. -/
theorem C9_option_values_not_escaped_witness :
    (("im\"g" : String) ≠ "" ∧ ("Lo<go" : String) ≠ "") ∧
    convertTextToSVG (some "A&B")
        { color := some "#0<0", fontFamily := some "Bad\"Family",
          role := some "im\"g", ariaLabel := some "Lo<go" } =
      "<svg xmlns=\"http://www.w3.org/2000/svg\" viewBox=\"0 0 100 20\" role=\"" ++
      ("im\"g" ++ ("\" aria-label=\"" ++ ("Lo<go" ++
      ("\">\n  <text x=\"0\" y=\"14\" font-family=\"" ++ ("Bad\"Family" ++
      ("\" font-size=\"48\" fill=\"" ++ ("#0<0" ++
      ("\">" ++ (escapeXml ((some "A&B").getD "") ++ "</text>\n</svg>"))))))))) :=
  ⟨⟨by decide, by decide⟩,
   C9_option_values_not_escaped (some "A&B") "Bad\"Family" "#0<0" "im\"g" "Lo<go"
     (by decide) (by decide)⟩

/-- Claim C10: for every text value (null and undefined rendering as
empty content) and every options value, the output carries the fixed
`viewBox="0 0 100 20"` and a `<text>` element fixed at `x="0" y="14"`:
those literals sit outside every varying part of the output. -/
theorem C10_fixed_viewbox_and_text_position (t : Option String) (o : ConvertOptions) :
    convertTextToSVG t o =
      ("<svg " ++ (nsAttr o ++ (widthAttr o ++ heightAttr o))) ++
      (" viewBox=\"0 0 100 20\"" ++ ((roleAttr o ++ ariaAttr o) ++
      (">\n  <text x=\"0\" y=\"14\" font-family=\"" ++ (o.fontFamily.getD "OpenCodeLogo" ++
      ("\" font-size=\"" ++ (toString (o.fontSize.getD 48) ++
      ("\" fill=\"" ++ (o.color.getD "#000" ++
      ("\">" ++ (escapeXml (t.getD "") ++ "</text>\n</svg>")))))))))) ∧
    convertTextToSVG none o = convertTextToSVG (some "") o := by
  constructor
  · simp only [convertTextToSVG, String.append_assoc]
  · rfl

end OpencodeFont
